import Mathlib

/-
Shallow embedding of src/src/data/DwrProxy.js (Ext.ux.data.DwrProxy):
a data-access proxy that dispatches CRUD actions over DWR remote functions
and routes the asynchronous completion back to the original request.

JavaScript values are modelled by the inductive JsValue; JavaScript runtime
errors (a thrown value, a ReferenceError on an undeclared identifier, a
TypeError) by JsError.  Stateful effects of the completion handlers, namely
fireEvent emissions and invocations of request.callback, are recorded as
explicit data in a HandlerResult.  External collaborators (the reader, the
DWR transport) are parameters: the reader is a structure of functions, the
transport is represented by the Completion value it delivers and by the
Dispatch record the proxy hands to it.
-/

namespace DwrProxy

/-- JavaScript values: undefined, null, booleans, strings, numbers
(modelled as integers; no claim involves fractional numbers), objects as
association lists of named fields, and arrays. -/
inductive JsValue where
  | undefined : JsValue
  | null : JsValue
  | bool : Bool → JsValue
  | str : String → JsValue
  | num : Int → JsValue
  | obj : List (String × JsValue) → JsValue
  | arr : List JsValue → JsValue

/-- JavaScript truthiness: undefined, null, false, the empty string and 0
are falsy; every object and array (even empty ones) is truthy. -/
def truthy : JsValue → Bool
  | .undefined => false
  | .null => false
  | .bool b => b
  | .str s => !s.isEmpty
  | .num n => n != 0
  | .obj _ => true
  | .arr _ => true

/-- JavaScript property read v[name]: the field value on an object when
present, undefined otherwise. -/
def getField (v : JsValue) (name : String) : JsValue :=
  match v with
  | .obj fields =>
    match fields.lookup name with
    | some x => x
    | none => .undefined
  | _ => .undefined

/-- Whether the value is an object that has the named own property. -/
def hasField (v : JsValue) (name : String) : Bool :=
  match v with
  | .obj fields => (fields.lookup name).isSome
  | _ => false

/-- JavaScript a or b (the logical-or operator): a when a is truthy,
b otherwise. -/
def jsOr (a b : JsValue) : JsValue :=
  if truthy a then a else b

/-- JavaScript strict comparison v === false: true exactly for the boolean
false, never for undefined, null, 0 or the empty string. -/
def isStrictFalse : JsValue → Bool
  | .bool false => true
  | _ => false

/-- JavaScript runtime errors the embedded code can raise: a value raised
by a throw statement in the proxy source (the source writes
throw new Exception(message); the identifier Exception is itself not a
standard global, so at runtime the site raises a ReferenceError, but either
way the statement raises synchronously and we keep the message of the
site), a ReferenceError from resolving an undeclared identifier, a
TypeError, and an arbitrary value thrown by external code such as the
reader. -/
inductive JsError where
  | exception : String → JsError
  | referenceError : String → JsError
  | typeError : String → JsError
  | thrown : JsValue → JsError

/-- JavaScript identifier resolution at a use site: the identifier is
looked up along the scope chain (here flattened to the list of identifiers
in scope); an identifier not found anywhere raises a ReferenceError. -/
def resolveIdent (scopeIdents : List String) (name : String) : Except JsError Unit :=
  if scopeIdents.contains name then .ok () else .error (.referenceError name)

/-- Identifiers in scope inside the catch blocks of onRead and onWrite:
the function parameters request and response, the local variable
readDataBlock, the catch variable e, and the page globals the source
depends on.  The identifier message is not among them: it is not declared
in any enclosing scope of either catch block. -/
def proxyCatchScopeIdents : List String :=
  ["request", "response", "readDataBlock", "e",
   "Ext", "dwr", "window", "document", "Object"]

/-- Metadata convention of the reader: which field of a data block is the
success flag and which is the root record collection
(reader.meta.successProperty and reader.meta.root). -/
structure ReaderMeta where
  successProperty : String
  root : String

/-- The external reader collaborator: readRecords for the read path,
readResponse for the write path; either may throw (error carries the
thrown value). -/
structure Reader where
  readRecords : JsValue → Except JsValue JsValue
  readResponse : String → JsValue → Except JsValue JsValue
  meta : ReaderMeta

/-- Ext.ux.data.DataProxy.Request: the value object built at the start of
each doRequest call.  The callback function itself is external; its
invocations are recorded as CallbackCall values in a HandlerResult, so the
Request carries only the data the proxy reads: action, records, params,
reader, scope and options. -/
structure Request where
  action : String
  records : JsValue
  params : JsValue
  reader : Reader
  scope : JsValue
  options : JsValue

/-- One recorded invocation of request.callback: the scope it was called
under and its three positional arguments. -/
structure CallbackCall where
  scope : JsValue
  arg1 : JsValue
  arg2 : JsValue
  arg3 : JsValue

/-- One recorded fireEvent emission.  exceptionEvt carries the kind
(remote or response), the action, the options, the response and the final
argument (null on the read path, request.records on the write path, the
exception on the response path); loadEvt carries the request and options;
writeEvt carries the action, the parsed records, the data block, the
outgoing records and the options. -/
inductive ProxyEvent where
  | exceptionEvt : String → String → JsValue → JsValue → JsValue → ProxyEvent
  | loadEvt : Request → JsValue → ProxyEvent
  | writeEvt : String → JsValue → JsValue → JsValue → JsValue → ProxyEvent

/-- The observable effects of running one completion handler: the events
fired and the callback invocations made. -/
structure HandlerResult where
  events : List ProxyEvent
  callbackCalls : List CallbackCall

/-- handleResponseException(request, response, exception): fires the
response-kind exception event and invokes request.callback under
request.scope with (null, request.options, false). -/
def handleResponseException (request : Request) (response exceptionVal : JsValue) :
    HandlerResult :=
  { events := [ProxyEvent.exceptionEvt "response" request.action request.options
                 response exceptionVal],
    callbackCalls := [{ scope := request.scope, arg1 := JsValue.null,
                        arg2 := request.options, arg3 := JsValue.bool false }] }

/-- onRead(request, response): parses via request.reader.readRecords.  If
the reader throws, the source executes
return this.handleResponseException(request, message, e) where the
identifier message is undeclared, so that statement first resolves
message, which raises a ReferenceError that escapes (the enclosing try has
already ended); the ok branch of that resolution is unreachable and uses
undefined as a placeholder for the unknowable resolved value.  On a
successful parse, reads the success flag from the data block, fires the
remote exception event when the flag is strictly false and the load event
otherwise, and in both cases invokes the callback with
(readDataBlock, request.options, success). -/
def onRead (request : Request) (response : JsValue) : Except JsError HandlerResult :=
  match request.reader.readRecords response with
  | .error e =>
    match resolveIdent proxyCatchScopeIdents "message" with
    | .error err => .error err
    | .ok _ => .ok (handleResponseException request JsValue.undefined e)
  | .ok readDataBlock =>
    let success := getField readDataBlock request.reader.meta.successProperty
    let events :=
      if isStrictFalse success then
        [ProxyEvent.exceptionEvt "remote" request.action request.options response
           JsValue.null]
      else
        [ProxyEvent.loadEvt request request.options]
    .ok { events := events,
          callbackCalls := [{ scope := request.scope, arg1 := readDataBlock,
                              arg2 := request.options, arg3 := success }] }

/-- onWrite(request, response): parses via
request.reader.readResponse(request.action, response), with the same
undeclared-message catch block as onRead.  On a successful parse, reads
the success flag and the root record collection from the data block, fires
the remote exception event (carrying request.records) when the flag is
strictly false and the write event otherwise, and in both cases invokes
the callback with (readRecords, response, success): the second argument is
the raw response, not the data block. -/
def onWrite (request : Request) (response : JsValue) : Except JsError HandlerResult :=
  match request.reader.readResponse request.action response with
  | .error e =>
    match resolveIdent proxyCatchScopeIdents "message" with
    | .error err => .error err
    | .ok _ => .ok (handleResponseException request JsValue.undefined e)
  | .ok readDataBlock =>
    let success := getField readDataBlock request.reader.meta.successProperty
    let readRecords := getField readDataBlock request.reader.meta.root
    let events :=
      if isStrictFalse success then
        [ProxyEvent.exceptionEvt "remote" request.action request.options response
           request.records]
      else
        [ProxyEvent.writeEvt request.action readRecords readDataBlock
           request.records request.options]
    .ok { events := events,
          callbackCalls := [{ scope := request.scope, arg1 := readRecords,
                              arg2 := response, arg3 := success }] }

/-- The two completion channels DWR offers a dispatched call: the success
channel carrying a response, and the fault channel carrying a message and
an exception value.  The transport guarantees at most one channel fires
per dispatched call; a Completion value is the one delivery. -/
inductive Completion where
  | success : JsValue → Completion
  | fault : JsValue → JsValue → Completion

/-- The pair of functions createCallback(request) appends to the DWR
arguments, as a function of the channel that fires: the success channel
routes to onRead when request.action === Ext.data.Api.actions.read (the
string read) and to onWrite otherwise; the fault channel routes to
handleResponseException(request, message, exception) where message here is
the declared exceptionHandler parameter. -/
def runCompletion (request : Request) (c : Completion) : Except JsError HandlerResult :=
  match c with
  | .success response =>
    if request.action = "read" then onRead request response
    else onWrite request response
  | .fault message exceptionVal =>
    .ok (handleResponseException request message exceptionVal)

/-- The fixed action set of Ext.data.Api.actions, in the iteration order
of that object: its four keys create, read, update and destroy, each
mapped to the identical string. -/
def Ext_data_Api_actions : List String := ["create", "read", "update", "destroy"]

/-- Ext.data.Api.isAction(action): whether Ext.data.Api.actions[action] is
truthy, that is, whether the value is one of the four action strings. -/
def Ext_data_Api_isAction : JsValue → Bool
  | .str s => s == "create" || s == "read" || s == "update" || s == "destroy"
  | _ => false

/-- An opaque reference to a DWR-generated remote function.  The proxy
never calls through it synchronously; doRequest records which reference
was dispatched together with its argument list. -/
structure DwrFunc where
  tag : Nat
deriving DecidableEq

/-- The scope value a getDwrArgsFunction is called under: either the
global Object constructor (the default the ActionHandler constructor
installs) or a configured value. -/
inductive ScopeVal where
  | objectCtor : ScopeVal
  | value : JsValue → ScopeVal

/-- Type of a getDwrArgsFunction: called with its scope, the request and
the record data array, it returns the DWR argument list (a JsValue,
expected to be an array). -/
abbrev GetDwrArgs := ScopeVal → Request → JsValue → JsValue

/-- Configuration bag for Ext.ux.data.DwrProxy.ActionHandler: each field
is optional (absent models the undefined property). -/
structure ActionHandlerConfig where
  action : Option JsValue
  dwrFunction : Option DwrFunc
  getDwrArgsFunction : Option GetDwrArgs
  getDwrArgsScope : Option JsValue

/-- A constructed Ext.ux.data.DwrProxy.ActionHandler. -/
structure ActionHandler where
  action : JsValue
  dwrFunction : DwrFunc
  getDwrArgsFunction : GetDwrArgs
  getDwrArgsScope : ScopeVal

/-- Truthiness of an optional JavaScript property: an absent property is
undefined, hence falsy. -/
def optTruthy : Option JsValue → Bool
  | none => false
  | some v => truthy v

/-- String rendering used when the source concatenates a value into an
error message.  Array rendering is simplified to a placeholder: no claim
depends on the message produced for an array action. -/
def jsToString : JsValue → String
  | .undefined => "undefined"
  | .null => "null"
  | .bool true => "true"
  | .bool false => "false"
  | .str s => s
  | .num n => toString n
  | .obj _ => "[object Object]"
  | .arr _ => "[array]"

/-- The default getDwrArgsFunctions installed when none is configured:
defaultGetDwrArgsFunctions.read returns the empty array (no arguments are
passed to the read dwrFunction); defaultGetDwrArgsFunctions.write returns
the record data array wrapped in a one-element array. -/
structure DefaultGetDwrArgsFunctions where
  read : GetDwrArgs
  write : GetDwrArgs

def defaultGetDwrArgsFunctions : DefaultGetDwrArgsFunctions :=
  { read := fun _ _ _ => JsValue.arr [],
    write := fun _ _ recordDataArray => JsValue.arr [recordDataArray] }

/-- The getDwrArgsScope default of the ActionHandler constructor: a falsy
configured scope (in particular an absent one) is replaced by the global
Object constructor. -/
def resolveGetDwrArgsScope : Option JsValue → ScopeVal
  | none => ScopeVal.objectCtor
  | some v => if truthy v then ScopeVal.value v else ScopeVal.objectCtor

/-- Constructor of Ext.ux.data.DwrProxy.ActionHandler: copies the config
onto the instance, then throws when this.action is falsy, when it is not a
valid Ext.data.Api action, or when this.dwrFunction is falsy (functions
are truthy, so only an absent one is); installs the per-action default
getDwrArgsFunction when none was configured, choosing the read default
exactly when this.action === Ext.data.Api.actions.read; and defaults a
falsy getDwrArgsScope to Object. -/
def ActionHandlerCtor (config : ActionHandlerConfig) : Except JsError ActionHandler :=
  if !(optTruthy config.action) then
    .error (.exception "\"action\" is not defined.")
  else if !(Ext_data_Api_isAction (config.action.getD JsValue.undefined)) then
    .error (.exception
      (jsToString (config.action.getD JsValue.undefined) ++
        " is not a valid Ext.data.Api action."))
  else
    match config.dwrFunction with
    | none => .error (.exception "\"dwrFunction\" is not defined.")
    | some f =>
      .ok { action := config.action.getD JsValue.undefined,
            dwrFunction := f,
            getDwrArgsFunction :=
              match config.getDwrArgsFunction with
              | some g => g
              | none =>
                match config.action.getD JsValue.undefined with
                | .str "read" => defaultGetDwrArgsFunctions.read
                | _ => defaultGetDwrArgsFunctions.write,
            getDwrArgsScope := resolveGetDwrArgsScope config.getDwrArgsScope }

/-- Configuration bag for Ext.ux.data.DwrProxy: the apiActionToHandlerMap
property, an object mapping action names to ActionHandler configs (absent
models the undefined property; an empty list models the empty object,
which is truthy). -/
structure DwrProxyConfig where
  apiActionToHandlerMap : Option (List (String × ActionHandlerConfig))

/-- The state a constructed Ext.ux.data.DwrProxy owns: its
apiActionToHandlerMap of constructed ActionHandlers (also stored under the
api key for the superclass, which is external to this repository). -/
structure DwrProxyState where
  apiActionToHandlerMap : List (String × ActionHandler)

/-- The Ext.iterate loop of the DwrProxy constructor over
Ext.data.Api.actions: for each action with a truthy config entry, sets
actionHandlerConfig.action to the action and constructs an ActionHandler
(propagating any construction failure); actions with no entry are
skipped. -/
def buildHandlers (configMap : List (String × ActionHandlerConfig)) :
    List String → Except JsError (List (String × ActionHandler))
  | [] => .ok []
  | action :: rest =>
    match configMap.lookup action with
    | none => buildHandlers configMap rest
    | some actionHandlerConfig =>
      match ActionHandlerCtor
          { actionHandlerConfig with action := some (JsValue.str action) } with
      | .error e => .error e
      | .ok handler =>
        match buildHandlers configMap rest with
        | .error e => .error e
        | .ok handlers => .ok ((action, handler) :: handlers)

/-- Constructor of Ext.ux.data.DwrProxy: throws when config is falsy or
config.apiActionToHandlerMap is falsy (an empty object is truthy and
passes), then builds one ActionHandler per configured action of the fixed
set.  The trailing superclass call (Ext.data.DataProxy) is external to
this repository and not part of the embedded state. -/
def DwrProxyCtor (config : Option DwrProxyConfig) : Except JsError DwrProxyState :=
  match config with
  | none =>
    .error (.exception "\"apiActionToHandlerMap\" is not defined within config.")
  | some c =>
    match c.apiActionToHandlerMap with
    | none =>
      .error (.exception "\"apiActionToHandlerMap\" is not defined within config.")
    | some configMap =>
      match buildHandlers configMap Ext_data_Api_actions with
      | .error e => .error e
      | .ok handlers => .ok { apiActionToHandlerMap := handlers }

/-- Ext.pluck(records, name): the array of the named property of each
element.  Ext.each treats null and undefined as the empty collection and
wraps any other non-array value as a one-element collection. -/
def Ext_pluck : JsValue → String → JsValue
  | .arr xs, name => .arr (xs.map (fun r => getField r name))
  | .null, _ => .arr []
  | .undefined, _ => .arr []
  | v, name => .arr [getField v name]

/-- getRecordDataArray(records): Ext.pluck(records, data), so the raw
records are not sent to DWR, only each record.data. -/
def getRecordDataArray (records : JsValue) : JsValue :=
  Ext_pluck records "data"

/-- One argument of a dispatched DWR call: either a JavaScript value
produced by the getDwrArgsFunction, or the trailing completion-handler
object createCallback(request) appends. -/
inductive DwrArg where
  | val : JsValue → DwrArg
  | callbackObj : Request → DwrArg

/-- The dispatch doRequest performs: which dwrFunction was applied and
with which argument list. -/
structure Dispatch where
  dwrFunction : DwrFunc
  args : List DwrArg

/-- doRequest(action, records, params, reader, callback, scope, options):
builds the Request, throws when no ActionHandler is registered for the
action (so no dispatch occurs and the callback can never fire), otherwise
calls the getDwrArgsFunction under its scope with the request and the
record data array, defaults a falsy result to the empty array, appends the
completion handler and applies the dwrFunction.  A truthy non-array
builder result has no push method, which is a TypeError. -/
def doRequest (proxy : DwrProxyState) (action : String) (records params : JsValue)
    (reader : Reader) (scope options : JsValue) : Except JsError Dispatch :=
  let request : Request :=
    { action := action, records := records, params := params,
      reader := reader, scope := scope, options := options }
  match proxy.apiActionToHandlerMap.lookup action with
  | none =>
    .error (.exception ("No API Action Handler defined for action: " ++ action))
  | some apiActionHandler =>
    let builderResult :=
      apiActionHandler.getDwrArgsFunction apiActionHandler.getDwrArgsScope request
        (getRecordDataArray records)
    match jsOr builderResult (JsValue.arr []) with
    | JsValue.arr xs =>
      .ok { dwrFunction := apiActionHandler.dwrFunction,
            args := xs.map DwrArg.val ++ [DwrArg.callbackObj request] }
    | _ => .error (.typeError "dwrArgs.push is not a function")

/-- Number of callback invocations an outcome performed: zero when an
error escaped the handler. -/
def callbackCount : Except JsError HandlerResult → Nat
  | .error _ => 0
  | .ok r => r.callbackCalls.length

/-- Number of events an outcome fired: zero when an error escaped the
handler. -/
def eventCount : Except JsError HandlerResult → Nat
  | .error _ => 0
  | .ok r => r.events.length

/-- Whether an outcome is an escaped error. -/
def isError {α : Type} : Except JsError α → Bool
  | .error _ => true
  | .ok _ => false

/-
Helper lemmas shared by the claim theorems.
-/

/-- A value without the named property reads as undefined. -/
theorem getField_eq_undefined_of_not_hasField (v : JsValue) (n : String)
    (h : hasField v n = false) : getField v n = JsValue.undefined := by
  cases v with
  | obj fields =>
    simp only [hasField] at h
    cases hl : fields.lookup n with
    | none => simp [getField, hl]
    | some x => rw [hl] at h; simp at h
  | undefined => rfl
  | null => rfl
  | bool b => rfl
  | str s => rfl
  | num n => rfl
  | arr xs => rfl

/-- A valid Ext.data.Api action value is truthy (the four action names are
nonempty strings). -/
theorem truthy_of_isAction (v : JsValue) (h : Ext_data_Api_isAction v = true) :
    truthy v = true := by
  cases v with
  | str s =>
    simp only [Ext_data_Api_isAction, Bool.or_eq_true, beq_iff_eq] at h
    rcases h with ((h | h) | h) | h <;> subst h <;> rfl
  | undefined => simp [Ext_data_Api_isAction] at h
  | null => simp [Ext_data_Api_isAction] at h
  | bool b => simp [Ext_data_Api_isAction] at h
  | num n => simp [Ext_data_Api_isAction] at h
  | obj fields => simp [Ext_data_Api_isAction] at h
  | arr xs => simp [Ext_data_Api_isAction] at h

/-
Claim theorems.
-/

/-- Reader whose parse always throws, for exercising the catch blocks. -/
def c1Reader : Reader :=
  { readRecords := fun _ => Except.error (JsValue.str "parse failure"),
    readResponse := fun _ _ => Except.error (JsValue.str "parse failure"),
    meta := { successProperty := "success", root := "objectsToConvertToRecords" } }

def c1Request : Request :=
  { action := "read", records := JsValue.null, params := JsValue.obj [],
    reader := c1Reader, scope := JsValue.obj [], options := JsValue.obj [] }

/-- C1: the claim states that every dispatched call runs exactly one of
the three terminal paths and fires the original callback exactly once,
regardless of which channel fires or whether the parse succeeds.  This
fails on the code: on the success channel with a reader whose parse
throws, the catch block of onRead references the undeclared identifier
message, so a ReferenceError escapes, no terminal path completes, no
event fires and the callback fires zero times. -/
theorem c1_parse_failure_drops_callback :
    runCompletion c1Request (Completion.success (JsValue.obj [])) =
      Except.error (JsError.referenceError "message") ∧
    callbackCount (runCompletion c1Request (Completion.success (JsValue.obj []))) = 0 ∧
    eventCount (runCompletion c1Request (Completion.success (JsValue.obj []))) = 0 :=
  ⟨rfl, rfl, rfl⟩

/-- Reader whose write-path parse always throws. -/
def c2Reader : Reader :=
  { readRecords := fun _ => Except.error (JsValue.str "boom"),
    readResponse := fun _ _ => Except.error (JsValue.str "boom"),
    meta := { successProperty := "success", root := "objectsToConvertToRecords" } }

def c2Request : Request :=
  { action := "update",
    records := JsValue.arr [JsValue.obj [("data", JsValue.obj [])]],
    params := JsValue.obj [], reader := c2Reader,
    scope := JsValue.obj [], options := JsValue.str "opts" }

/-- C2: the claim states that a parse failure on either success channel
routes to the fault handler, invoking the callback with
(null, options, false) and firing one response exception event carrying
the raw response and the parse error.  This fails on the code: the catch
blocks of onRead and onWrite call
this.handleResponseException(request, message, e) where message is an
undeclared identifier, so a ReferenceError escapes before the fault
handler runs: no event fires and the callback fires zero times (and even
under a page that happened to define a global message, the value passed
as the response context field would be that global, not the raw
response). -/
theorem c2_parse_failure_skips_fault_handler :
    onWrite c2Request (JsValue.obj [("x", JsValue.num 1)]) =
      Except.error (JsError.referenceError "message") ∧
    callbackCount (onWrite c2Request (JsValue.obj [("x", JsValue.num 1)])) = 0 ∧
    eventCount (onWrite c2Request (JsValue.obj [("x", JsValue.num 1)])) = 0 ∧
    onRead c2Request (JsValue.obj [("x", JsValue.num 1)]) =
      Except.error (JsError.referenceError "message") :=
  ⟨rfl, rfl, rfl, rfl⟩

/-- C3 counterexample: the claim states construction fails both when the
per-action map is absent and when it is present but empty.  The code only
checks config.apiActionToHandlerMap for truthiness, and an empty object
is truthy in JavaScript, so a present-but-empty map passes the check and
the constructor completes with an empty handler map, raising nothing. -/
theorem c3_empty_map_constructs :
    DwrProxyCtor (some { apiActionToHandlerMap := some [] }) =
      Except.ok { apiActionToHandlerMap := [] } := rfl

/-- C3 amended: construction fails with the configuration error exactly
for an absent config or an absent apiActionToHandlerMap property; a
present-but-empty map is accepted and registers no handlers. -/
theorem c3_absent_map_fails (config : Option DwrProxyConfig)
    (h : config = none ∨ ∃ c, config = some c ∧ c.apiActionToHandlerMap = none) :
    DwrProxyCtor config =
      Except.error
        (JsError.exception "\"apiActionToHandlerMap\" is not defined within config.") := by
  rcases h with h | ⟨c, hc, hm⟩
  · subst h; rfl
  · subst hc; simp [DwrProxyCtor, hm]

/-- Witness for the amended C3 at the concrete input none. -/
theorem c3_absent_map_fails_witness :
    DwrProxyCtor none =
      Except.error
        (JsError.exception "\"apiActionToHandlerMap\" is not defined within config.") :=
  c3_absent_map_fails none (Or.inl rfl)

/-- C4: on the write success channel (action create, update or destroy)
with a response the reader parses successfully, the callback is invoked
under request.scope with (parsedRecords, rawResponse, successFlag), the
second argument being the raw response; when the flag is strictly false
the remote exception event carrying the action, options, raw response and
the original outgoing records fires instead of the write event. -/
theorem c4_write_success_callback_and_events (request : Request) (response db : JsValue)
    (hw : request.action = "create" ∨ request.action = "update" ∨
      request.action = "destroy")
    (hp : request.reader.readResponse request.action response = Except.ok db) :
    runCompletion request (Completion.success response) =
      Except.ok
        { events :=
            if isStrictFalse (getField db request.reader.meta.successProperty) then
              [ProxyEvent.exceptionEvt "remote" request.action request.options
                response request.records]
            else
              [ProxyEvent.writeEvt request.action
                (getField db request.reader.meta.root) db request.records
                request.options],
          callbackCalls := [
            { scope := request.scope,
              arg1 := getField db request.reader.meta.root,
              arg2 := response,
              arg3 := getField db request.reader.meta.successProperty }] } := by
  have hne : ¬ request.action = "read" := by
    rcases hw with h | h | h <;> simp [h]
  simp [runCompletion, hne, onWrite, hp]

def c4Reader : Reader :=
  { readRecords := fun response => Except.ok response,
    readResponse := fun _ response => Except.ok response,
    meta := { successProperty := "success", root := "objectsToConvertToRecords" } }

def c4Request : Request :=
  { action := "update",
    records := JsValue.arr [JsValue.obj [("data", JsValue.obj [])]],
    params := JsValue.obj [], reader := c4Reader,
    scope := JsValue.obj [], options := JsValue.str "opts" }

def c4Db : JsValue :=
  JsValue.obj [("success", JsValue.bool false), ("objectsToConvertToRecords", JsValue.arr [])]

/-- Witness for C4 at a concrete update request whose reader returns a
data block with a strictly false success flag. -/
theorem c4_write_success_witness :
    runCompletion c4Request (Completion.success c4Db) =
      Except.ok
        { events :=
            if isStrictFalse (getField c4Db c4Request.reader.meta.successProperty) then
              [ProxyEvent.exceptionEvt "remote" c4Request.action c4Request.options
                c4Db c4Request.records]
            else
              [ProxyEvent.writeEvt c4Request.action
                (getField c4Db c4Request.reader.meta.root) c4Db c4Request.records
                c4Request.options],
          callbackCalls := [
            { scope := c4Request.scope,
              arg1 := getField c4Db c4Request.reader.meta.root,
              arg2 := c4Db,
              arg3 := getField c4Db c4Request.reader.meta.successProperty }] } :=
  c4_write_success_callback_and_events c4Request c4Db c4Db
    (Or.inr (Or.inl rfl)) rfl

/-- C5: on the read success channel with a response the reader parses
successfully, the callback is invoked under request.scope with
(dataBlock, options, successFlag) whatever the flag is; the remote
exception event (action, options, raw response, null) fires when the flag
is strictly false, the load event otherwise. -/
theorem c5_read_success_callback_and_events (request : Request) (response db : JsValue)
    (hr : request.action = "read")
    (hp : request.reader.readRecords response = Except.ok db) :
    runCompletion request (Completion.success response) =
      Except.ok
        { events :=
            if isStrictFalse (getField db request.reader.meta.successProperty) then
              [ProxyEvent.exceptionEvt "remote" request.action request.options
                response JsValue.null]
            else
              [ProxyEvent.loadEvt request request.options],
          callbackCalls := [
            { scope := request.scope, arg1 := db, arg2 := request.options,
              arg3 := getField db request.reader.meta.successProperty }] } := by
  simp [runCompletion, hr, onRead, hp]

def c5Reader : Reader :=
  { readRecords := fun response => Except.ok response,
    readResponse := fun _ response => Except.ok response,
    meta := { successProperty := "success", root := "objectsToConvertToRecords" } }

def c5Request : Request :=
  { action := "read", records := JsValue.null, params := JsValue.obj [],
    reader := c5Reader, scope := JsValue.obj [], options := JsValue.str "opts" }

def c5Db : JsValue :=
  JsValue.obj [("success", JsValue.bool true),
    ("objectsToConvertToRecords", JsValue.arr [JsValue.obj [("id", JsValue.num 1)]])]

/-- Witness for C5 at a concrete read request whose reader returns a data
block with a true success flag. -/
theorem c5_read_success_witness :
    runCompletion c5Request (Completion.success c5Db) =
      Except.ok
        { events :=
            if isStrictFalse (getField c5Db c5Request.reader.meta.successProperty) then
              [ProxyEvent.exceptionEvt "remote" c5Request.action c5Request.options
                c5Db JsValue.null]
            else
              [ProxyEvent.loadEvt c5Request c5Request.options],
          callbackCalls := [
            { scope := c5Request.scope, arg1 := c5Db, arg2 := c5Request.options,
              arg3 := getField c5Db c5Request.reader.meta.successProperty }] } :=
  c5_read_success_callback_and_events c5Request c5Db c5Db rfl rfl

/-- C6: doRequest for an action with no registered ActionHandler raises
the unconfigured-action error synchronously: the result is that error, so
no Dispatch is produced.  The dwrFunction is never applied, the completion
handler is never created, and since callbacks only arise from running a
Dispatch through a completion, the callback can never fire for this
call. -/
theorem c6_unconfigured_action_raises (proxy : DwrProxyState) (action : String)
    (records params : JsValue) (reader : Reader) (scope options : JsValue)
    (h : proxy.apiActionToHandlerMap.lookup action = none) :
    doRequest proxy action records params reader scope options =
      Except.error
        (JsError.exception ("No API Action Handler defined for action: " ++ action)) := by
  simp [doRequest, h]

def c6Reader : Reader :=
  { readRecords := fun response => Except.ok response,
    readResponse := fun _ response => Except.ok response,
    meta := { successProperty := "success", root := "objectsToConvertToRecords" } }

/-- Witness for C6 at a proxy with an empty handler map. -/
theorem c6_unconfigured_action_witness :
    doRequest { apiActionToHandlerMap := [] } "read" JsValue.null (JsValue.obj [])
      c6Reader JsValue.null JsValue.null =
      Except.error
        (JsError.exception ("No API Action Handler defined for action: " ++ "read")) :=
  c6_unconfigured_action_raises { apiActionToHandlerMap := [] } "read" JsValue.null
    (JsValue.obj []) c6Reader JsValue.null JsValue.null rfl

/-- C7: the ActionHandler constructor raises exactly when the action is
missing, the action is not a member of the fixed set, or the dwrFunction
is missing; a configuration satisfying all three conditions constructs
without error (the backward direction of the iff applied contrapositively).
Note a configured falsy action such as the empty string fails the first
truthiness check, and every such value is also outside the fixed set, so
the disjunction is exact. -/
theorem c7_action_handler_ctor_error_iff (config : ActionHandlerConfig) :
    isError (ActionHandlerCtor config) = true ↔
      (config.action = none ∨
       Ext_data_Api_isAction (config.action.getD JsValue.undefined) = false ∨
       config.dwrFunction = none) := by
  rcases config with ⟨a, f, g, sc⟩
  constructor
  · intro he
    by_cases h1 : optTruthy a = true
    · by_cases h2 : Ext_data_Api_isAction (a.getD JsValue.undefined) = true
      · cases f with
        | none => exact Or.inr (Or.inr rfl)
        | some fn => simp [ActionHandlerCtor, h1, h2, isError] at he
      · exact Or.inr (Or.inl (by simpa using h2))
    · cases a with
      | none => exact Or.inl rfl
      | some v =>
        refine Or.inr (Or.inl ?_)
        simp only [optTruthy] at h1
        show Ext_data_Api_isAction v = false
        cases hA : Ext_data_Api_isAction v with
        | false => rfl
        | true => exact absurd (truthy_of_isAction v hA) h1
  · intro h
    rcases h with h | h | h
    · subst h; rfl
    · by_cases h1 : optTruthy a = true
      · simp [ActionHandlerCtor, h1, h, isError]
      · simp [ActionHandlerCtor, h1, isError]
    · subst h
      by_cases h1 : optTruthy a = true
      · by_cases h2 : Ext_data_Api_isAction (a.getD JsValue.undefined) = true
        · simp [ActionHandlerCtor, h1, h2, isError]
        · simp [ActionHandlerCtor, h1, h2, isError]
      · simp [ActionHandlerCtor, h1, isError]

def c7BadConfig : ActionHandlerConfig :=
  { action := none, dwrFunction := some { tag := 0 },
    getDwrArgsFunction := none, getDwrArgsScope := none }

/-- Witness for C7 at a concrete config with a missing action. -/
theorem c7_action_handler_ctor_witness :
    isError (ActionHandlerCtor c7BadConfig) = true :=
  (c7_action_handler_ctor_error_iff c7BadConfig).mpr (Or.inl rfl)

/-- C8: with no custom getDwrArgsFunction configured, the dispatched
argument list before the trailing completion handler is empty for the
read action, and for the write actions is the single-element list holding
the record data array, the ordered list of each outgoing record.data
(only the data fields of each record, no framework metadata). -/
theorem c8_default_dispatch_args (f : DwrFunc) (sc : Option JsValue) (action : String)
    (handler : ActionHandler) (records params : JsValue) (reader : Reader)
    (scope options : JsValue)
    (hc : ActionHandlerCtor
        { action := some (JsValue.str action), dwrFunction := some f,
          getDwrArgsFunction := none, getDwrArgsScope := sc } = Except.ok handler) :
    (action = "read" →
      doRequest { apiActionToHandlerMap := [(action, handler)] } action records
          params reader scope options =
        Except.ok
          { dwrFunction := f,
            args := [DwrArg.callbackObj
              { action := action, records := records, params := params,
                reader := reader, scope := scope, options := options }] }) ∧
    ((action = "create" ∨ action = "update" ∨ action = "destroy") →
      ∀ rs : List JsValue, records = JsValue.arr rs →
      doRequest { apiActionToHandlerMap := [(action, handler)] } action records
          params reader scope options =
        Except.ok
          { dwrFunction := f,
            args := [DwrArg.val (JsValue.arr (rs.map (fun r => getField r "data"))),
              DwrArg.callbackObj
                { action := action, records := records, params := params,
                  reader := reader, scope := scope, options := options }] }) := by
  constructor
  · intro ha
    subst ha
    have hred : ActionHandlerCtor
        { action := some (JsValue.str "read"), dwrFunction := some f,
          getDwrArgsFunction := none, getDwrArgsScope := sc } =
        Except.ok
          { action := JsValue.str "read", dwrFunction := f,
            getDwrArgsFunction := defaultGetDwrArgsFunctions.read,
            getDwrArgsScope := resolveGetDwrArgsScope sc } :=
      rfl
    rw [hred] at hc
    injection hc with hc'
    subst hc'
    rfl
  · intro hw rs hrec
    subst hrec
    rcases hw with ha | ha | ha
    · subst ha
      have hred : ActionHandlerCtor
          { action := some (JsValue.str "create"), dwrFunction := some f,
            getDwrArgsFunction := none, getDwrArgsScope := sc } =
          Except.ok
            { action := JsValue.str "create", dwrFunction := f,
              getDwrArgsFunction := defaultGetDwrArgsFunctions.write,
              getDwrArgsScope := resolveGetDwrArgsScope sc } :=
        rfl
      rw [hred] at hc
      injection hc with hc'
      subst hc'
      rfl
    · subst ha
      have hred : ActionHandlerCtor
          { action := some (JsValue.str "update"), dwrFunction := some f,
            getDwrArgsFunction := none, getDwrArgsScope := sc } =
          Except.ok
            { action := JsValue.str "update", dwrFunction := f,
              getDwrArgsFunction := defaultGetDwrArgsFunctions.write,
              getDwrArgsScope := resolveGetDwrArgsScope sc } :=
        rfl
      rw [hred] at hc
      injection hc with hc'
      subst hc'
      rfl
    · subst ha
      have hred : ActionHandlerCtor
          { action := some (JsValue.str "destroy"), dwrFunction := some f,
            getDwrArgsFunction := none, getDwrArgsScope := sc } =
          Except.ok
            { action := JsValue.str "destroy", dwrFunction := f,
              getDwrArgsFunction := defaultGetDwrArgsFunctions.write,
              getDwrArgsScope := resolveGetDwrArgsScope sc } :=
        rfl
      rw [hred] at hc
      injection hc with hc'
      subst hc'
      rfl

def c8ReadHandler : ActionHandler :=
  { action := JsValue.str "read", dwrFunction := { tag := 0 },
    getDwrArgsFunction := defaultGetDwrArgsFunctions.read,
    getDwrArgsScope := ScopeVal.objectCtor }

def c8WriteHandler : ActionHandler :=
  { action := JsValue.str "create", dwrFunction := { tag := 1 },
    getDwrArgsFunction := defaultGetDwrArgsFunctions.write,
    getDwrArgsScope := ScopeVal.objectCtor }

def c8Reader : Reader :=
  { readRecords := fun response => Except.ok response,
    readResponse := fun _ response => Except.ok response,
    meta := { successProperty := "success", root := "objectsToConvertToRecords" } }

def c8Records : JsValue :=
  JsValue.arr [JsValue.obj [("data", JsValue.obj [("id", JsValue.num 7)])]]

/-- Witness for C8: a concrete default-configured read dispatch carries
only the completion handler, and a concrete default-configured create
dispatch carries exactly the record data array and the completion
handler. -/
theorem c8_default_dispatch_witness :
    doRequest { apiActionToHandlerMap := [("read", c8ReadHandler)] } "read"
        JsValue.null (JsValue.obj []) c8Reader JsValue.null JsValue.null =
      Except.ok
        { dwrFunction := { tag := 0 },
          args := [DwrArg.callbackObj
            { action := "read", records := JsValue.null, params := JsValue.obj [],
              reader := c8Reader, scope := JsValue.null, options := JsValue.null }] } ∧
    doRequest { apiActionToHandlerMap := [("create", c8WriteHandler)] } "create"
        c8Records (JsValue.obj []) c8Reader JsValue.null JsValue.null =
      Except.ok
        { dwrFunction := { tag := 1 },
          args := [DwrArg.val (JsValue.arr [JsValue.obj [("id", JsValue.num 7)]]),
            DwrArg.callbackObj
              { action := "create", records := c8Records, params := JsValue.obj [],
                reader := c8Reader, scope := JsValue.null,
                options := JsValue.null }] } :=
  ⟨(c8_default_dispatch_args { tag := 0 } none "read" c8ReadHandler JsValue.null
      (JsValue.obj []) c8Reader JsValue.null JsValue.null rfl).1 rfl,
   (c8_default_dispatch_args { tag := 1 } none "create" c8WriteHandler c8Records
      (JsValue.obj []) c8Reader JsValue.null JsValue.null rfl).2 (Or.inl rfl)
      [JsValue.obj [("data", JsValue.obj [("id", JsValue.num 7)])]] rfl⟩

/-- Keys produced by the constructor loop are drawn from the iterated
action list. -/
theorem buildHandlers_ok_keys (configMap : List (String × ActionHandlerConfig)) :
    ∀ (actions : List String) (handlers : List (String × ActionHandler)),
      buildHandlers configMap actions = Except.ok handlers →
      ∀ p ∈ handlers, p.1 ∈ actions := by
  intro actions
  induction actions with
  | nil =>
    intro handlers h p hp
    simp only [buildHandlers] at h
    injection h with h'
    subst h'
    simp at hp
  | cons a rest ih =>
    intro handlers h p hp
    simp only [buildHandlers] at h
    cases hl : configMap.lookup a with
    | none =>
      simp only [hl] at h
      exact List.mem_cons_of_mem a (ih handlers h p hp)
    | some cfg =>
      simp only [hl] at h
      cases hctor : ActionHandlerCtor { cfg with action := some (JsValue.str a) } with
      | error e =>
        simp only [hctor] at h
        exact Except.noConfusion h
      | ok handler =>
        simp only [hctor] at h
        cases hrest : buildHandlers configMap rest with
        | error e =>
          simp only [hrest] at h
          exact Except.noConfusion h
        | ok hs =>
          simp only [hrest] at h
          injection h with h'
          subst h'
          rcases List.mem_cons.mp hp with hp1 | hp2
          · subst hp1; exact List.mem_cons_self a rest
          · exact List.mem_cons_of_mem a (ih hs hrest p hp2)

/-- A map entry whose key is outside the iterated action list changes
nothing: the loop never looks it up. -/
theorem buildHandlers_skip_foreign (k : String) (v : ActionHandlerConfig)
    (configMap : List (String × ActionHandlerConfig)) :
    ∀ actions : List String, k ∉ actions →
      buildHandlers ((k, v) :: configMap) actions = buildHandlers configMap actions := by
  intro actions
  induction actions with
  | nil => intro _; rfl
  | cons a rest ih =>
    intro hk
    have hka : k ≠ a := fun h => hk (h ▸ List.mem_cons_self a rest)
    have hkrest : k ∉ rest := fun h => hk (List.mem_cons_of_mem a h)
    have hbeq : (a == k) = false := by
      simp only [beq_eq_false_iff_ne, ne_eq]
      exact fun h => hka h.symm
    simp only [buildHandlers, List.lookup, hbeq, ih hkrest]

/-- C9: the constructor iterates only over the fixed action set, so every
key of the resulting handler map is one of the four actions, and an entry
of the configuration map under any other key is silently ignored: the
construction outcome (including any raised error) is identical with and
without it, so no error is raised for it and no handler is registered
under it. -/
theorem c9_fixed_action_keys :
    (∀ (configMap : List (String × ActionHandlerConfig)) (proxy : DwrProxyState),
      DwrProxyCtor (some { apiActionToHandlerMap := some configMap }) =
        Except.ok proxy →
      ∀ p ∈ proxy.apiActionToHandlerMap, p.1 ∈ Ext_data_Api_actions) ∧
    (∀ (k : String) (v : ActionHandlerConfig)
      (configMap : List (String × ActionHandlerConfig)),
      k ∉ Ext_data_Api_actions →
      DwrProxyCtor (some { apiActionToHandlerMap := some ((k, v) :: configMap) }) =
        DwrProxyCtor (some { apiActionToHandlerMap := some configMap })) := by
  constructor
  · intro configMap proxy hp p hmem
    simp only [DwrProxyCtor] at hp
    cases hb : buildHandlers configMap Ext_data_Api_actions with
    | error e => rw [hb] at hp; simp at hp
    | ok handlers =>
      rw [hb] at hp
      injection hp with hp'
      rw [← hp'] at hmem
      exact buildHandlers_ok_keys configMap Ext_data_Api_actions handlers hb p hmem
  · intro k v configMap hk
    simp only [DwrProxyCtor]
    rw [buildHandlers_skip_foreign k v configMap Ext_data_Api_actions hk]

def c9ForeignConfig : ActionHandlerConfig :=
  { action := none, dwrFunction := none,
    getDwrArgsFunction := none, getDwrArgsScope := none }

/-- Witness for C9 at the concrete foreign key login: even an entry whose
handler config would itself be invalid is ignored without an error. -/
theorem c9_fixed_action_keys_witness :
    DwrProxyCtor (some { apiActionToHandlerMap := some [("login", c9ForeignConfig)] }) =
      DwrProxyCtor (some { apiActionToHandlerMap := some [] }) :=
  c9_fixed_action_keys.2 "login" c9ForeignConfig [] (by decide)

/-- C10: when the parsed data block lacks the success-flag property, the
flag read is undefined, which is not strictly false, so the success branch
is taken on either channel (load on read, write on write) and the
callback receives undefined as its third argument, a value distinct from
both booleans. -/
theorem c10_absent_success_flag (request : Request) (response db : JsValue) :
    (request.action = "read" →
      request.reader.readRecords response = Except.ok db →
      hasField db request.reader.meta.successProperty = false →
      runCompletion request (Completion.success response) =
        Except.ok
          { events := [ProxyEvent.loadEvt request request.options],
            callbackCalls := [
              { scope := request.scope, arg1 := db, arg2 := request.options,
                arg3 := JsValue.undefined }] }) ∧
    ((request.action = "create" ∨ request.action = "update" ∨
        request.action = "destroy") →
      request.reader.readResponse request.action response = Except.ok db →
      hasField db request.reader.meta.successProperty = false →
      runCompletion request (Completion.success response) =
        Except.ok
          { events := [ProxyEvent.writeEvt request.action
              (getField db request.reader.meta.root) db request.records
              request.options],
            callbackCalls := [
              { scope := request.scope,
                arg1 := getField db request.reader.meta.root,
                arg2 := response, arg3 := JsValue.undefined }] }) ∧
    JsValue.undefined ≠ JsValue.bool true ∧ JsValue.undefined ≠ JsValue.bool false := by
  refine ⟨?_, ?_, fun h => JsValue.noConfusion h, fun h => JsValue.noConfusion h⟩
  · intro hr hp hs
    have hu := getField_eq_undefined_of_not_hasField db _ hs
    simp [runCompletion, hr, onRead, hp, hu, isStrictFalse]
  · intro hw hp hs
    have hu := getField_eq_undefined_of_not_hasField db _ hs
    have hne : ¬ request.action = "read" := by
      rcases hw with h | h | h <;> simp [h]
    simp [runCompletion, hne, onWrite, hp, hu, isStrictFalse]

def c10Reader : Reader :=
  { readRecords := fun response => Except.ok response,
    readResponse := fun _ response => Except.ok response,
    meta := { successProperty := "success", root := "objectsToConvertToRecords" } }

def c10Request : Request :=
  { action := "read", records := JsValue.null, params := JsValue.obj [],
    reader := c10Reader, scope := JsValue.obj [], options := JsValue.str "opts" }

def c10Db : JsValue :=
  JsValue.obj [("objectsToConvertToRecords", JsValue.arr [])]

/-- Witness for C10 at a concrete read request whose parsed data block has
no success property. -/
theorem c10_absent_success_flag_witness :
    runCompletion c10Request (Completion.success c10Db) =
      Except.ok
        { events := [ProxyEvent.loadEvt c10Request c10Request.options],
          callbackCalls := [
            { scope := c10Request.scope, arg1 := c10Db, arg2 := c10Request.options,
              arg3 := JsValue.undefined }] } :=
  (c10_absent_success_flag c10Request c10Db c10Db).1 rfl rfl rfl

end DwrProxy
